import Mathlib

/-!
Shallow embedding of the Model Court trial orchestration engine
(src/model_court), covering the data model (core/models.py), the verdict
rule evaluator and bounded concurrency runner (utils/helpers.py), the
Jury (core/jury.py), the Judge (core/judge.py), the Prosecutor
(core/prosecutor.py) and the Court orchestrator (core/court.py).

Machine reals (Python floats) are modelled as rationals; datetimes as
integers; every fallible call is modelled by `Except String` or by an
explicit outcome type supplied through an environment record.
-/

namespace ModelCourt

/-- Jury decision literal, from models.JuryVote.decision
(Literal["no_objection", "suspicious_fact", "reasonable_doubt", "abstain"]). -/
inductive Decision
  | no_objection
  | suspicious_fact
  | reasonable_doubt
  | abstain
deriving DecidableEq, Repr

/-- models.JuryVote. The pydantic `timestamp` field is omitted: it is
wall-clock metadata no claim examines. Confidence is the parsed float. -/
structure JuryVote where
  jury_name : String
  claim_id : String
  decision : Decision
  confidence : ℚ
  reason : String
  reference_summary : Option String := none
  search_cycles : Nat := 1
deriving DecidableEq, Repr

/-- models.JuryVote.is_objection: decision in ["suspicious_fact", "reasonable_doubt"]. -/
def JuryVote.is_objection (v : JuryVote) : Bool :=
  v.decision == Decision.suspicious_fact || v.decision == Decision.reasonable_doubt

/-- models.Precedent. Datetimes are Ints; unset Optional datetimes are none. -/
structure Precedent where
  precedent_id : String
  claim : String
  verdict : String
  reasoning : String
  similarity_score : ℚ
  timestamp : Int
  valid_from : Option Int := none
  valid_until : Option Int := none
deriving DecidableEq, Repr

/-- models.Precedent.is_valid: `if self.valid_from and check_date < self.valid_from:
return False` and symmetrically for valid_until (a datetime object is always
truthy in Python, None is falsy, so truthiness is exactly the Option match). -/
def Precedent.is_valid (p : Precedent) (check_date : Int) : Bool :=
  if (match p.valid_from with | some f => decide (check_date < f) | none => false) then false
  else if (match p.valid_until with | some u => decide (u < check_date) | none => false) then false
  else true

/-- models.CourtCodeEntry (precedent-store record). Only the fields read by the
core slice are kept; statistics fields are retained for _record_verdict. -/
structure CourtCodeEntry where
  entry_id : String
  claim : String
  verdict : String
  reasoning : String
  domain : String := "general"
  case_id : String
  timestamp : Int := 0
  valid_from : Option Int := none
  valid_until : Option Int := none
  jury_votes_count : Nat := 0
  objection_count : Nat := 0
  objection_ratio : ℚ := 0
deriving DecidableEq, Repr

/-- models.CourtCodeEntry.is_valid, textually identical to Precedent.is_valid. -/
def CourtCodeEntry.is_valid (e : CourtCodeEntry) (check_date : Int) : Bool :=
  if (match e.valid_from with | some f => decide (check_date < f) | none => false) then false
  else if (match e.valid_until with | some u => decide (u < check_date) | none => false) then false
  else true

/-- models.Claim.source (Literal["new", "cache", "precedent"]). -/
inductive ClaimSource
  | new
  | cache
  | precedent
deriving DecidableEq, Repr

/-- models.Claim. claim_id is generated by uuid4 in the source; here it is an
arbitrary string supplied by the environment's id generator. -/
structure Claim where
  claim_id : String := ""
  text : String
  source : ClaimSource := ClaimSource.new
  cache_id : Option String := none
  cached_verdict : Option String := none
  precedents : List Precedent := []
deriving DecidableEq, Repr

/-- models.ClaimResult (timestamp omitted as for JuryVote). -/
structure ClaimResult where
  claim : Claim
  jury_votes : List JuryVote
  verdict : String
  judge_reasoning : String
  objection_count : Nat := 0
  objection_ratio : ℚ := 0
deriving DecidableEq, Repr

/-- models.CaseReport. status is one of the strings "completed", "mistrial",
"partial" exactly as the source stores it. -/
structure CaseReport where
  case_id : String
  case_text : String
  domain : String := "general"
  status : String
  claims : List ClaimResult := []
  error_message : Option String := none
deriving DecidableEq, Repr

/-- Verdict rule value, from the helpers.calculate_verdict rules dict: an entry
is either the literal string "default" or a dict with "operator" and "value".
An entry whose operator key is missing behaves like an unknown operator
(rule.get returns None, which matches no comparison branch), so `cond` with an
arbitrary operator string covers it. -/
inductive VerdictRule
  | default
  | cond (operator : String) (value : ℚ)
deriving DecidableEq, Repr

/-- Operator dispatch of helpers.calculate_verdict: the five recognised
operator strings; anything else matches no branch and the rule is skipped. -/
def ruleTest (operator : String) (objection_ratio value : ℚ) : Bool :=
  if operator = "eq" then decide (objection_ratio = value)
  else if operator = "lt" then decide (objection_ratio < value)
  else if operator = "le" then decide (objection_ratio ≤ value)
  else if operator = "gt" then decide (value < objection_ratio)
  else if operator = "ge" then decide (value ≤ objection_ratio)
  else false

/-- Loop of helpers.calculate_verdict over the ordered rules dict, carrying the
last "default" verdict name seen. The final `default_verdict or "unknown"`
uses Python truthiness: a None default, and also an empty-string default
verdict name, both yield "unknown". -/
def calcVerdictGo (objection_ratio : ℚ) :
    List (String × VerdictRule) → Option String → String
  | [], dflt =>
    match dflt with
    | some v => if v = "" then "unknown" else v
    | none => "unknown"
  | (verdict, VerdictRule.default) :: rest, _ =>
    calcVerdictGo objection_ratio rest (some verdict)
  | (verdict, VerdictRule.cond op value) :: rest, dflt =>
    if ruleTest op objection_ratio value then verdict
    else calcVerdictGo objection_ratio rest dflt

/-- helpers.calculate_verdict. Rules are an ordered association list, matching
Python's insertion-ordered dict. -/
def calculate_verdict (objection_ratio : ℚ)
    (rules : List (String × VerdictRule)) : String :=
  calcVerdictGo objection_ratio rules none

/-- Denotation of one awaited coroutine: it either completes with a value or
raises an exception (carried as the exception's message string). -/
inductive TaskOutcome (α : Type)
  | ok (a : α)
  | err (msg : String)
deriving DecidableEq, Repr

/-- helpers.run_with_concurrency_limit. The semaphore bounds how many tasks are
in flight at once but does not change the returned value, so the sequential
denotation ignores `limit`; asyncio.gather (without return_exceptions) returns
the results positionally when every task completes, and propagates a failing
task's exception to the awaiter instead of returning a list. -/
def run_with_concurrency_limit {α : Type} :
    List (TaskOutcome α) → Nat → Except String (List α)
  | [], _ => Except.ok []
  | TaskOutcome.ok a :: rest, limit =>
    (run_with_concurrency_limit rest limit).map (fun l => a :: l)
  | TaskOutcome.err e :: _, _ => Except.error e

/-- Court._conduct_jury_trial.get_vote: awaits one jury's vote, catching any
exception and returning None in its place. -/
def get_vote (outcome : TaskOutcome JuryVote) : Option JuryVote :=
  match outcome with
  | TaskOutcome.ok v => some v
  | TaskOutcome.err _ => none

/-- Configuration state kept by Judge.__init__ that the core logic reads.
The LLM handle is supplied separately through the trial environment. -/
structure JudgeCfg where
  verdict_rules : List (String × VerdictRule)
deriving DecidableEq, Repr

/-- Default verdict rules of Judge.__init__. -/
def defaultVerdictRules : List (String × VerdictRule) :=
  [("supported", VerdictRule.cond "eq" 0),
   ("suspicious", VerdictRule.cond "lt" (1/2)),
   ("refuted", VerdictRule.default)]

/-- Judge.__init__: `self.verdict_rules = verdict_rules or {...default...}`.
Python truthiness: a None argument and an empty rules dict both select the
default rules. No validation of operators or rule shape is performed; the
only raising code in Judge.__init__ is create_llm_provider(model), which
inspects the model configuration and never looks at verdict_rules. -/
def mkJudge (verdict_rules : Option (List (String × VerdictRule))) : JudgeCfg :=
  match verdict_rules with
  | none => ⟨defaultVerdictRules⟩
  | some [] => ⟨defaultVerdictRules⟩
  | some rules => ⟨rules⟩

/-- Validation block of Court.__init__: `if len(juries) < quorum: raise
ValueError(...)`. Everything else in Court.__init__ is plain attribute
assignment. -/
def mkCourt (numJuries quorum concurrency_limit : Nat) : Except String (Nat × Nat) :=
  if numJuries < quorum then
    Except.error ("Number of juries (" ++ toString numJuries ++
      ") must be >= quorum (" ++ toString quorum ++ ")")
  else
    Except.ok (quorum, concurrency_limit)

/-- Percent rendering standing in for Python's "{:.1%}" float format: one
decimal digit of the percentage, rounded half-up (the source formats a binary
float with round-half-even; the two differ only on exact half-thousandth
boundaries, and no claim inspects this text). -/
def pctStr (q : ℚ) : String :=
  let n : Int := ⌊q * 1000 + 1/2⌋
  toString (n / 10) ++ "." ++ toString ((n % 10).natAbs) ++ "%"

/-- Judge._generate_fallback_reasoning. `int(total_votes * objection_ratio)`
truncates toward zero; the ratio is nonnegative in every call, so floor. -/
def fallback_reasoning (total_votes : Nat) (objection_ratio : ℚ) (verdict : String) : String :=
  let objection_count : Int := ⌊(total_votes : ℚ) * objection_ratio⌋
  if verdict = "supported" then
    "Based on unanimous agreement from " ++ toString total_votes ++
      " jury members with no objections raised, this claim is SUPPORTED."
  else if verdict = "suspicious" then
    "Based on " ++ toString objection_count ++ " objection(s) out of " ++
      toString total_votes ++ " jury members (" ++ pctStr objection_ratio ++
      "), this claim is considered SUSPICIOUS and requires further investigation."
  else
    "Based on " ++ toString objection_count ++ " objection(s) out of " ++
      toString total_votes ++ " jury members (" ++ pctStr objection_ratio ++
      "), this claim is REFUTED."

/-- Judge._generate_reasoning, with the LLM interaction abstracted to the
extracted "reasoning" field: Except.error covers the generate_json call
raising or the parsed response not being a dict (response.get raising inside
the try); Except.ok s is `response.get("reasoning", "")`. An empty reasoning
and a raised exception both fall back to the deterministic template. -/
def generate_reasoning (llmReasoning : Except String String)
    (total_votes : Nat) (objection_ratio : ℚ) (verdict : String) : String :=
  match llmReasoning with
  | Except.ok s => if s = "" then fallback_reasoning total_votes objection_ratio verdict else s
  | Except.error _ => fallback_reasoning total_votes objection_ratio verdict

/-- Judge.verdict objection statistics: `sum(1 for vote in jury_votes if
vote.is_objection())`. -/
def objectionCount (jury_votes : List JuryVote) : Nat :=
  (jury_votes.filter (fun v => v.is_objection)).length

/-- Judge.verdict. `objection_ratio = objection_count / len(jury_votes) if
jury_votes else 0.0`; the verdict comes from calculate_verdict; reasoning
from _generate_reasoning (which never raises). The precedents argument only
feeds prompt text, hence only influences `llmReasoning` upstream. -/
def judgeVerdict (judge : JudgeCfg) (llmReasoning : Except String String)
    (claim : Claim) (jury_votes : List JuryVote) : ClaimResult :=
  let objection_count := objectionCount jury_votes
  let objection_ratio : ℚ :=
    if jury_votes.length = 0 then 0 else (objection_count : ℚ) / (jury_votes.length : ℚ)
  let verdict_decision := calculate_verdict objection_ratio judge.verdict_rules
  let reasoning := generate_reasoning llmReasoning jury_votes.length objection_ratio verdict_decision
  { claim := claim
    jury_votes := jury_votes
    verdict := verdict_decision
    judge_reasoning := reasoning
    objection_count := objection_count
    objection_ratio := objection_ratio }

/-- Value found under the "decision" key of the jury LLM response: either one
of the four literal strings, or any other JSON value (which pydantic's
Literal validation rejects when the JuryVote is constructed). -/
inductive DecisionField
  | valid (d : Decision)
  | invalid
deriving DecidableEq, Repr

/-- Value found under the "confidence" key after `float(...)`: either the
parsed number, or unparseable (float() raised TypeError/ValueError). -/
inductive ConfField
  | val (q : ℚ)
  | unparseable
deriving DecidableEq, Repr

/-- Fields of a jury LLM response that parsed to a JSON object. A missing key
is `none`; jury code reads them with dict.get defaults. Non-string "reason"
values, which pydantic would also reject into the abstain branch, are not
modelled separately. -/
structure JuryResponse where
  decision : Option DecisionField := none
  confidence : Option ConfField := none
  reason : Option String := none
deriving DecidableEq, Repr

/-- Outcome of one BaseLLMProvider.generate_json call as the jury sees it:
`failure` if generate (transport error, timeout) or JSON extraction raised;
`nonDict` if the parsed JSON was not an object, making `response.get` raise
AttributeError inside the jury's try block; `dict` otherwise. -/
inductive LLMJsonResult
  | failure (msg : String)
  | nonDict
  | dict (fields : JuryResponse)
deriving DecidableEq, Repr

/-- Abstain vote produced by the except branches of Jury._vote_simple and
Jury._vote_with_steel. -/
def abstainVote (jury_name claim_id reason : String) (search_cycles : Nat) : JuryVote :=
  { jury_name := jury_name
    claim_id := claim_id
    decision := Decision.abstain
    confidence := 0
    reason := reason
    reference_summary := none
    search_cycles := search_cycles }

/-- Shared decision-parsing block of Jury._vote_simple and the final step of
Jury._vote_with_steel: read decision/confidence/reason with their dict.get
defaults, then construct the JuryVote; `float(...)` raising, a decision
outside the four literals, or a confidence outside [0, 1] all raise inside
the try and collapse to the abstain fallback with a reason describing the
failure (`errTag` is the source's message prefix for that method). -/
def parseVoteResponse (llm : LLMJsonResult) (jury_name claim_id : String)
    (reference_summary : Option String) (search_cycles : Nat) (errTag : String) : JuryVote :=
  match llm with
  | LLMJsonResult.failure msg =>
    abstainVote jury_name claim_id (errTag ++ msg) search_cycles
  | LLMJsonResult.nonDict =>
    abstainVote jury_name claim_id (errTag ++ "response object has no attribute get") search_cycles
  | LLMJsonResult.dict fields =>
    match fields.decision.getD (DecisionField.valid Decision.reasonable_doubt) with
    | DecisionField.invalid =>
      abstainVote jury_name claim_id (errTag ++ "validation error for JuryVote decision") search_cycles
    | DecisionField.valid d =>
      match fields.confidence.getD (ConfField.val (1/2)) with
      | ConfField.unparseable =>
        abstainVote jury_name claim_id (errTag ++ "could not convert confidence to float") search_cycles
      | ConfField.val c =>
        if c < 0 ∨ 1 < c then
          abstainVote jury_name claim_id (errTag ++ "validation error for JuryVote confidence") search_cycles
        else
          { jury_name := jury_name
            claim_id := claim_id
            decision := d
            confidence := c
            reason := fields.reason.getD "No reason provided"
            reference_summary := reference_summary
            search_cycles := search_cycles }

/-- Evidence text assembled by Jury._vote_simple: empty when there is no
reference source, when retrieval raised (caught with a warning), or when the
retrieved list is empty. -/
def simpleEvidenceText (retrieval : Option (TaskOutcome (List String))) : String :=
  match retrieval with
  | none => ""
  | some (TaskOutcome.err _) => ""
  | some (TaskOutcome.ok evidence) =>
    if evidence.isEmpty then ""
    else "\n\nAvailable Evidence:\n" ++ String.intercalate "\n---\n" evidence

/-- Jury._vote_simple. `retrieval` is the reference.retrieve outcome (none
when the jury has no reference source); `llm` the generate_json outcome. -/
def vote_simple (jury_name : String) (retrieval : Option (TaskOutcome (List String)))
    (llm : LLMJsonResult) (claim : Claim) : JuryVote :=
  let evidence_text := simpleEvidenceText retrieval
  parseVoteResponse llm jury_name claim.claim_id
    (if evidence_text = "" then none else some (evidence_text.take 200)) 1
    "Error during evaluation: "

/-- Value found under the "sufficient" key of a STEEL sufficiency response:
a JSON bool, a string (lower-cased and compared against the accepted list),
or any other value, of which only the Python truthiness matters. -/
inductive SuffVal
  | boolV (b : Bool)
  | strV (s : String)
  | otherTruthy
  | otherFalsy
deriving DecidableEq, Repr

/-- Outcome of the sufficiency generate_json call in Jury._vote_with_steel:
it raised, parsed to a dict, parsed to a plain string, or parsed to some
other JSON value. -/
inductive SuffResponse
  | raised (msg : String)
  | dictR (sufficient : Option SuffVal) (new_query : Option String)
  | strR (s : String)
  | otherR
deriving DecidableEq, Repr

/-- String-to-bool coercion used for sufficiency:
`lower() in ["true", "yes", "sufficient"]`. -/
def suffStrTrue (s : String) : Bool :=
  ["true", "yes", "sufficient"].contains s.toLower

/-- Truthiness of the "sufficient" field after the jury's isinstance handling
(dict branch): missing key defaults to False; strings go through suffStrTrue;
any other value is used by its truthiness. -/
def suffFieldTrue (sufficient : Option SuffVal) : Bool :=
  match sufficient.getD (SuffVal.boolV false) with
  | SuffVal.boolV b => b
  | SuffVal.strV s => suffStrTrue s
  | SuffVal.otherTruthy => true
  | SuffVal.otherFalsy => false

/-- Mutable state of the STEEL while-loop: accumulated evidence, the number of
search cycles performed so far, and the current query. -/
structure SteelState where
  evidence : List String
  cycles : Nat
  query : String
deriving DecidableEq, Repr

/-- STEEL while-loop of Jury._vote_with_steel, with fuel = remaining
iterations (the source loops `while search_cycle < search_cycle_max`, and
cycles starts at 0, so the initial fuel is search_cycle_max). Per iteration:
the cycle counter is incremented first; a retrieval failure breaks with the
counter already bumped; a sufficiency-call failure, a sufficient answer, a
non-dict sufficiency response, and a missing or empty new_query all break;
only an insufficient dict with a truthy new_query loops with that query. -/
def steelGo (retrieve : Nat → String → TaskOutcome (List String))
    (sufficiency : Nat → SuffResponse) : Nat → SteelState → SteelState
  | 0, st => st
  | fuel + 1, st =>
    let cycle := st.cycles + 1
    match retrieve cycle st.query with
    | TaskOutcome.err _ => { st with cycles := cycle }
    | TaskOutcome.ok evidence =>
      let st1 : SteelState := { evidence := st.evidence ++ evidence, cycles := cycle, query := st.query }
      match sufficiency cycle with
      | SuffResponse.raised _ => st1
      | SuffResponse.strR _ => st1
      | SuffResponse.otherR => st1
      | SuffResponse.dictR sufficient new_query =>
        if suffFieldTrue sufficient then st1
        else
          match new_query with
          | none => st1
          | some q => if q = "" then st1 else steelGo retrieve sufficiency fuel { st1 with query := q }

/-- Jury._vote_with_steel: run the STEEL loop from the claim text, then issue
one final decision request over all accumulated evidence; the final vote
records the performed cycle count, and its failure branch abstains. -/
def vote_with_steel (jury_name : String)
    (retrieve : Nat → String → TaskOutcome (List String))
    (sufficiency : Nat → SuffResponse) (finalLLM : LLMJsonResult)
    (search_cycle_max : Nat) (claim : Claim) : JuryVote :=
  let st := steelGo retrieve sufficiency search_cycle_max
    { evidence := [], cycles := 0, query := claim.text }
  parseVoteResponse finalLLM jury_name claim.claim_id
    (some ("Evidence from " ++ toString st.cycles ++ " search cycles")) st.cycles
    "Error during STEEL evaluation: "

/-- Configuration of one Jury (jury.Jury.__init__): hasReference is
`reference is not None`. -/
structure JuryCfg where
  name : String
  hasReference : Bool := false
  search_cycle_mode : Bool := false
  search_cycle_max : Nat := 3
deriving DecidableEq, Repr

/-- External-call outcomes consumed by one Jury.vote invocation. -/
structure JuryCallEnv where
  simpleRetrieval : TaskOutcome (List String) := TaskOutcome.ok []
  simpleLLM : LLMJsonResult
  steelRetrieve : Nat → String → TaskOutcome (List String) := fun _ _ => TaskOutcome.ok []
  steelSufficiency : Nat → SuffResponse := fun _ => SuffResponse.otherR
  steelFinalLLM : LLMJsonResult := LLMJsonResult.nonDict

/-- Jury.vote: dispatch to the STEEL path when search_cycle_mode is on and a
reference source exists, else the simple path (which only retrieves evidence
when a reference source exists). -/
def juryVote (cfg : JuryCfg) (env : JuryCallEnv) (claim : Claim) : JuryVote :=
  if cfg.search_cycle_mode && cfg.hasReference then
    vote_with_steel cfg.name env.steelRetrieve env.steelSufficiency env.steelFinalLLM
      cfg.search_cycle_max claim
  else
    vote_simple cfg.name (if cfg.hasReference then some env.simpleRetrieval else none)
      env.simpleLLM claim

/-- Outcome of the claim-splitting LLM interaction in
Prosecutor._split_into_claims: the generate call raised (caught with a
warning), the response did not yield a parseable list of strings (covering
both "no JSON array found" and "parsed value is not a list of strings"), or
it yielded a Python list of strings. -/
inductive SplitResponse
  | raised (msg : String)
  | notStringList
  | strList (claims : List String)
deriving DecidableEq, Repr

/-- Environment of one Court.hear invocation: the configuration fixed at
construction plus the outcome of every external call the trial makes.
judgeLLMReasoning is the Judge's reasoning-synthesis call; it receives the
claim and the substantive votes because the claim's attached precedents and
the votes only influence that call's prompt. claimIdOf/caseId stand in for
uuid4-based generate_id. -/
structure TrialEnv where
  quorum : Nat := 3
  concurrency_limit : Nat := 5
  judge : JudgeCfg := mkJudge none
  auto_claim_splitting : Bool := false
  splitResponse : SplitResponse := SplitResponse.notStringList
  searchExact : String → Except String (Option CourtCodeEntry) := fun _ => Except.ok none
  searchSimilar : String → Except String (List Precedent) := fun _ => Except.ok []
  juryVoteOutcomes : Claim → List (TaskOutcome JuryVote) := fun _ => []
  judgeLLMReasoning : Claim → List JuryVote → Except String String := fun _ _ => Except.ok ""
  now : Int := 0
  caseId : String := ""
  claimIdOf : String → String := fun _ => ""

/-- Prosecutor._split_into_claims: every failure mode falls back to treating
the whole case as one claim; a parsed list of strings is stripped and empty
entries are dropped. -/
def split_into_claims (env : TrialEnv) (case_text : String) : List String :=
  match env.splitResponse with
  | SplitResponse.raised _ => [case_text]
  | SplitResponse.notStringList => [case_text]
  | SplitResponse.strList claims => (claims.map (fun c => c.trim)).filter (fun c => c ≠ "")

/-- Similar-precedent branch of Prosecutor.process: search_similar may raise
(uncaught); valid precedents are filtered with is_valid at the current time;
a nonempty valid list marks the claim source "precedent", else "new". -/
def classifySimilar (env : TrialEnv) (claim_text : String) : Except String Claim := do
  let similar ← env.searchSimilar claim_text
  let valid := similar.filter (fun p => p.is_valid env.now)
  if valid.isEmpty then
    Except.ok { claim_id := env.claimIdOf claim_text, text := claim_text, source := ClaimSource.new }
  else
    Except.ok { claim_id := env.claimIdOf claim_text, text := claim_text,
                source := ClaimSource.precedent, precedents := valid }

/-- Per-claim-text classification of Prosecutor.process: search_exact may
raise (uncaught); an exact match that is currently valid becomes a cache
claim carrying the cached verdict, otherwise the similar branch runs. -/
def classifyClaim (env : TrialEnv) (claim_text : String) : Except String Claim := do
  let exact ← env.searchExact claim_text
  match exact with
  | some entry =>
    if entry.is_valid env.now then
      Except.ok { claim_id := env.claimIdOf claim_text, text := claim_text,
                  source := ClaimSource.cache, cache_id := some entry.entry_id,
                  cached_verdict := some entry.verdict }
    else
      classifySimilar env claim_text
  | none => classifySimilar env claim_text

/-- Prosecutor.process, reduced to the claims list the Court iterates over
(the report's counters cache_hits/precedents_found are not read by any
claim). Claim splitting never raises; the per-claim store lookups can. -/
def prosecutorProcess (env : TrialEnv) (case_text : String) : Except String (List Claim) := do
  let claim_texts :=
    if env.auto_claim_splitting then split_into_claims env case_text else [case_text]
  claim_texts.mapM (classifyClaim env)

/-- Court._conduct_jury_trial: wrap every jury.vote task in get_vote (so the
runner only ever sees non-raising tasks), run them through the bounded
runner, drop failed (None) and abstain votes, and either report a quorum
failure (none) or ask the Judge for a verdict. The precedents argument
passed to the Judge only shapes the reasoning prompt, which lives in
env.judgeLLMReasoning. -/
def conductJuryTrial (env : TrialEnv) (claim : Claim) : Except String (Option ClaimResult) := do
  let votes ← run_with_concurrency_limit
    ((env.juryVoteOutcomes claim).map (fun o => TaskOutcome.ok (get_vote o)))
    env.concurrency_limit
  let successful_votes := (votes.filterMap id).filter
    (fun v => !(v.decision == Decision.abstain))
  if successful_votes.length < env.quorum then
    Except.ok none
  else
    Except.ok (some (judgeVerdict env.judge
      (env.judgeLLMReasoning claim successful_votes) claim successful_votes))

/-- Python str() of an Optional[str], as interpolated into the cached-verdict
reasoning message (None prints as "None"). -/
def pyOptStr (s : Option String) : String :=
  match s with
  | some v => v
  | none => "None"

/-- ClaimResult synthesized by Court.hear for a cache-source claim. -/
def cachedClaimResult (claim : Claim) (verdict : String) : ClaimResult :=
  { claim := claim
    jury_votes := []
    verdict := verdict
    judge_reasoning := "This claim was previously decided. Using cached verdict from precedent "
      ++ pyOptStr claim.cache_id ++ "."
    objection_count := 0
    objection_ratio := 0 }

/-- Outcome of the try-block body of Court.hear's per-claim loop: a
ClaimResult was produced, _conduct_jury_trial reported a quorum failure
(None), or an exception was raised and caught by the except branch. -/
inductive COutcome
  | result (r : ClaimResult)
  | quorumFail
  | raised
deriving DecidableEq, Repr

/-- One iteration body of Court.hear's claim loop. A cache claim short-cuts to
cachedClaimResult; a cache claim with no cached verdict raises at ClaimResult
validation (verdict must be a string), landing in the except branch. For
other claims, _conduct_jury_trial runs; an exception anywhere in the body is
caught (COutcome.raised). The subsequent _record_verdict call catches its own
failures and changes no trial state, so it has no denotation here. -/
def processClaim (env : TrialEnv) (claim : Claim) : COutcome :=
  if claim.source == ClaimSource.cache then
    match claim.cached_verdict with
    | some v => COutcome.result (cachedClaimResult claim v)
    | none => COutcome.raised
  else
    match conductJuryTrial env claim with
    | Except.ok (some r) => COutcome.result r
    | Except.ok none => COutcome.quorumFail
    | Except.error _ => COutcome.raised

/-- Loop variables of Court.hear: accumulated claim_results, the
mistrial_occurred and partial_failure flags, and error_message. -/
structure LoopState where
  results : List ClaimResult := []
  mistrial : Bool := false
  partFail : Bool := false
  errMsg : Option String := none
deriving DecidableEq, Repr

/-- Mistrial message of Court.hear (claim.text[:50] slices code points, as
String.take does). -/
def quorumErrorMessage (claim : Claim) : String :=
  "Failed to meet quorum for claim: " ++ claim.text.take 50 ++ "..."

/-- Claim loop of Court.hear: append on success, set mistrial and the error
message and break on quorum failure, set partial_failure and continue on a
caught exception. -/
def hearLoop (env : TrialEnv) : List Claim → LoopState → LoopState
  | [], s => s
  | claim :: rest, s =>
    match processClaim env claim with
    | COutcome.result r => hearLoop env rest { s with results := s.results ++ [r] }
    | COutcome.quorumFail => { s with mistrial := true, errMsg := some (quorumErrorMessage claim) }
    | COutcome.raised => hearLoop env rest { s with partFail := true }

/-- Steps 2-4 of Court.hear, from the prosecutor's claims list to the report:
run the loop, then derive the status (mistrial beats partial beats
completed). -/
def hearFromClaims (env : TrialEnv) (case_text domain : String)
    (claims : List Claim) : CaseReport :=
  let final := hearLoop env claims {}
  { case_id := env.caseId
    case_text := case_text
    domain := domain
    status := if final.mistrial then "mistrial"
              else if final.partFail then "partial" else "completed"
    claims := final.results
    error_message := final.errMsg }

/-- Court.hear. The prosecutor.process call sits before and outside the
per-claim try block, so an exception it raises propagates to hear's caller;
everything after it is total. -/
def hear (env : TrialEnv) (case_text domain : String) : Except String CaseReport :=
  (prosecutorProcess env case_text).map (hearFromClaims env case_text domain)

/-- Substantive votes the Court collects for a claim: delivered (non-None)
and not abstaining, in jury order. -/
def substantive_votes (env : TrialEnv) (claim : Claim) : List JuryVote :=
  (((env.juryVoteOutcomes claim).map get_vote).filterMap id).filter
    (fun v => !(v.decision == Decision.abstain))

/-- ClaimResults the loop accumulates over a claims list, assuming no break. -/
def resultsOf (env : TrialEnv) (claims : List Claim) : List ClaimResult :=
  claims.filterMap (fun c =>
    match processClaim env c with
    | COutcome.result r => some r
    | _ => none)

/-- Whether some claim's processing raised (was caught and flagged). -/
def anyRaised (env : TrialEnv) (claims : List Claim) : Bool :=
  claims.any (fun c =>
    match processClaim env c with
    | COutcome.raised => true
    | _ => false)

section Lemmas

/-- When every task handed to the runner is an ok-wrapped value, gather
returns exactly the wrapped values, positionally. -/
lemma run_concurrency_map_ok {α β : Type} (f : α → β) (l : List α) (limit : Nat) :
    run_with_concurrency_limit (l.map (fun o => TaskOutcome.ok (f o))) limit
      = Except.ok (l.map f) := by
  induction l with
  | nil => rfl
  | cons a t ih => simp [run_with_concurrency_limit, ih, Except.map]

/-- Closed form of _conduct_jury_trial: it never raises, and returns none
exactly when the substantive votes fall short of the quorum. -/
lemma conductJuryTrial_eq (env : TrialEnv) (claim : Claim) :
    conductJuryTrial env claim =
      Except.ok (if (substantive_votes env claim).length < env.quorum then none
        else some (judgeVerdict env.judge
          (env.judgeLLMReasoning claim (substantive_votes env claim))
          claim (substantive_votes env claim))) := by
  unfold conductJuryTrial substantive_votes
  rw [run_concurrency_map_ok get_vote]
  by_cases h : ((((env.juryVoteOutcomes claim).map get_vote).filterMap id).filter
      (fun v => !(v.decision == Decision.abstain))).length < env.quorum
  · simp only [Except.bind, bind, List.filterMap_map, Function.id_comp] at h ⊢
    simp [h]
  · simp only [Except.bind, bind, List.filterMap_map, Function.id_comp] at h ⊢
    simp [h]

/-- processClaim on a non-cache claim is quorumFail iff substantive votes
fall short of the quorum. -/
lemma processClaim_quorumFail_iff (env : TrialEnv) (claim : Claim)
    (hsrc : claim.source ≠ ClaimSource.cache) :
    processClaim env claim = COutcome.quorumFail ↔
      (substantive_votes env claim).length < env.quorum := by
  unfold processClaim
  rw [conductJuryTrial_eq]
  have hb : (claim.source == ClaimSource.cache) = false := by
    simp [hsrc]
  rw [hb]
  by_cases h : (substantive_votes env claim).length < env.quorum
  · simp [h]
  · simp [h]

/-- Closed form of the hear loop over a claims segment containing no quorum
failure: results are appended in order, the partial flag absorbs any caught
exception, and mistrial/error message are untouched. -/
lemma hearLoop_no_quorumFail (env : TrialEnv) :
    ∀ (claims : List Claim) (s : LoopState),
      (∀ c ∈ claims, processClaim env c ≠ COutcome.quorumFail) →
      hearLoop env claims s =
        { results := s.results ++ resultsOf env claims
          mistrial := s.mistrial
          partFail := s.partFail || anyRaised env claims
          errMsg := s.errMsg } := by
  intro claims
  induction claims with
  | nil => intro s _; simp [hearLoop, resultsOf, anyRaised]
  | cons c rest ih =>
    intro s h
    have hc := h c (by simp)
    have hrest : ∀ x ∈ rest, processClaim env x ≠ COutcome.quorumFail := by
      intro x hx; exact h x (by simp [hx])
    cases ho : processClaim env c with
    | result r =>
      simp only [hearLoop, ho]
      rw [ih _ hrest]
      simp [resultsOf, anyRaised, ho, List.append_assoc]
    | quorumFail => exact absurd ho hc
    | raised =>
      simp only [hearLoop, ho]
      rw [ih _ hrest]
      simp [resultsOf, anyRaised, ho]

/-- Closed form of the hear loop when a quorum failure is hit after a
no-quorum-failure prefix: the loop breaks at that claim with the mistrial
flag and message set, having accumulated only the prefix results; the
claims after the break point are never consulted. -/
lemma hearLoop_quorumFail (env : TrialEnv) (c : Claim) (post : List Claim) :
    ∀ (pre : List Claim) (s : LoopState),
      (∀ p ∈ pre, processClaim env p ≠ COutcome.quorumFail) →
      processClaim env c = COutcome.quorumFail →
      hearLoop env (pre ++ c :: post) s =
        { results := s.results ++ resultsOf env pre
          mistrial := true
          partFail := s.partFail || anyRaised env pre
          errMsg := some (quorumErrorMessage c) } := by
  intro pre
  induction pre with
  | nil =>
    intro s _ hc
    simp [hearLoop, hc, resultsOf, anyRaised]
  | cons p rest ih =>
    intro s h hc
    have hp := h p (by simp)
    have hrest : ∀ x ∈ rest, processClaim env x ≠ COutcome.quorumFail := by
      intro x hx; exact h x (by simp [hx])
    cases ho : processClaim env p with
    | result r =>
      simp only [List.cons_append, hearLoop, ho, List.append_eq]
      rw [ih _ hrest hc]
      simp [resultsOf, anyRaised, ho, List.append_assoc]
    | quorumFail => exact absurd ho hp
    | raised =>
      simp only [List.cons_append, hearLoop, ho, List.append_eq]
      rw [ih _ hrest hc]
      simp [resultsOf, anyRaised, ho]

/-- Shared window arithmetic behind both is_valid implementations. -/
lemma window_check_iff (vf vu : Option Int) (t : Int) :
    (if (match vf with | some f => decide (t < f) | none => false) then false
     else if (match vu with | some u => decide (u < t) | none => false) then false
     else true) = true ↔
      ((vf = none ∨ ∃ f, vf = some f ∧ f ≤ t)
        ∧ (vu = none ∨ ∃ u, vu = some u ∧ t ≤ u)) := by
  cases vf with
  | none =>
    cases vu with
    | none => simp
    | some u => by_cases h : u < t <;> simp [h] <;> try omega
  | some f =>
    cases vu with
    | none => by_cases h : t < f <;> simp [h] <;> try omega
    | some u =>
      by_cases h1 : t < f
      · simp [h1]; try omega
      · by_cases h2 : u < t <;> simp [h1, h2] <;> try omega

/-- Python timeline of calculate_verdict's default_verdict variable: it is
overwritten by every "default" entry scanned, so after a full scan it holds
the last default's verdict name. -/
def lastDefaultName (rules : List (String × VerdictRule)) : Option String :=
  rules.foldl (fun acc p =>
    match p.2 with
    | VerdictRule.default => some p.1
    | VerdictRule.cond _ _ => acc) none

/-- Final `return default_verdict or "unknown"` of calculate_verdict under
Python truthiness. -/
def pyDefaultVerdict (dflt : Option String) : String :=
  match dflt with
  | some v => if v = "" then "unknown" else v
  | none => "unknown"

/-- Whether a rules entry is a condition that matches the given ratio
(a "default" entry never matches a comparison). -/
def condMatchesB (objection_ratio : ℚ) (p : String × VerdictRule) : Bool :=
  match p.2 with
  | VerdictRule.default => false
  | VerdictRule.cond op value => ruleTest op objection_ratio value

/-- The scan returns the first matching condition's verdict, whatever default
name is being carried. -/
lemma calcVerdictGo_first_match (r : ℚ) (name op : String) (v : ℚ)
    (rest : List (String × VerdictRule)) :
    ∀ (pre : List (String × VerdictRule)) (dflt : Option String),
      (∀ p ∈ pre, condMatchesB r p = false) →
      ruleTest op r v = true →
      calcVerdictGo r (pre ++ (name, VerdictRule.cond op v) :: rest) dflt = name := by
  intro pre
  induction pre with
  | nil => intro dflt _ hm; simp [calcVerdictGo, hm]
  | cons q t ih =>
    intro dflt h hm
    have hq := h q (by simp)
    have ht : ∀ p ∈ t, condMatchesB r p = false := fun p hp => h p (by simp [hp])
    cases q with
    | mk qn qr =>
      cases qr with
      | default => simpa [calcVerdictGo] using ih (some qn) ht hm
      | cond qo qv =>
        have : ruleTest qo r qv = false := by simpa [condMatchesB] using hq
        simpa [calcVerdictGo, this] using ih dflt ht hm

/-- When no condition matches, the scan finishes with the last default seen
(falling back to the carried one), run through Python's `or "unknown"`. -/
lemma calcVerdictGo_no_match (r : ℚ) :
    ∀ (rules : List (String × VerdictRule)) (dflt : Option String),
      (∀ p ∈ rules, condMatchesB r p = false) →
      calcVerdictGo r rules dflt =
        pyDefaultVerdict (rules.foldl (fun acc p =>
          match p.2 with
          | VerdictRule.default => some p.1
          | VerdictRule.cond _ _ => acc) dflt) := by
  intro rules
  induction rules with
  | nil => intro dflt _; rfl
  | cons q t ih =>
    intro dflt h
    have hq := h q (by simp)
    have ht : ∀ p ∈ t, condMatchesB r p = false := fun p hp => h p (by simp [hp])
    cases q with
    | mk qn qr =>
      cases qr with
      | default => simpa [calcVerdictGo] using ih (some qn) ht
      | cond qo qv =>
        have : ruleTest qo r qv = false := by simpa [condMatchesB] using hq
        simpa [calcVerdictGo, this] using ih dflt ht

/-- C9: for every precedent-store entry and every check time t, is_valid t is
true iff (valid_from unset or valid_from ≤ t) and (valid_until unset or
t ≤ valid_until); this holds for both CourtCodeEntry.is_valid and the
identical Precedent.is_valid, and in particular an entry whose valid_until
is T (and whose valid_from does not exclude T) is valid at exactly T and
invalid at T + 1. -/
theorem c9_is_valid_window :
    (∀ (e : CourtCodeEntry) (t : Int),
        e.is_valid t = true ↔
          ((e.valid_from = none ∨ ∃ f, e.valid_from = some f ∧ f ≤ t)
            ∧ (e.valid_until = none ∨ ∃ u, e.valid_until = some u ∧ t ≤ u)))
    ∧ (∀ (p : Precedent) (t : Int),
        p.is_valid t = true ↔
          ((p.valid_from = none ∨ ∃ f, p.valid_from = some f ∧ f ≤ t)
            ∧ (p.valid_until = none ∨ ∃ u, p.valid_until = some u ∧ t ≤ u)))
    ∧ (∀ (e : CourtCodeEntry) (T : Int),
        e.valid_until = some T →
        (e.valid_from = none ∨ ∃ f, e.valid_from = some f ∧ f ≤ T) →
        (e.is_valid T = true ∧ e.is_valid (T + 1) = false)) := by
  refine ⟨fun e t => window_check_iff e.valid_from e.valid_until t,
    fun p t => window_check_iff p.valid_from p.valid_until t, fun e T hu hf => ⟨?_, ?_⟩⟩
  · exact (window_check_iff e.valid_from e.valid_until T).mpr
      ⟨hf, Or.inr ⟨T, hu, le_refl T⟩⟩
  · by_contra hvalid
    have hv : e.is_valid (T + 1) = true := by
      cases hb : e.is_valid (T + 1) with
      | false => exact absurd hb hvalid
      | true => rfl
    rcases ((window_check_iff e.valid_from e.valid_until (T + 1)).mp hv).2 with h | ⟨u, hu2, hle⟩
    · rw [h] at hu; exact Option.noConfusion hu
    · rw [hu] at hu2
      have h3 : T = u := by injection hu2
      omega

/-- Concrete precedent-store entry with validity window [0, 100]. -/
def entryW : CourtCodeEntry :=
  { entry_id := "e1", claim := "the sky is blue", verdict := "supported",
    reasoning := "prior ruling", case_id := "case-0",
    valid_from := some 0, valid_until := some 100 }

/-- C9 witness: the window characterization and the boundary facts evaluated
on a concrete entry with valid_until = 100. -/
theorem c9_is_valid_window_witness :
    (entryW.is_valid 50 = true ↔
      ((entryW.valid_from = none ∨ ∃ f, entryW.valid_from = some f ∧ f ≤ (50 : Int))
        ∧ (entryW.valid_until = none ∨ ∃ u, entryW.valid_until = some u ∧ (50 : Int) ≤ u)))
    ∧ (entryW.is_valid 100 = true ∧ entryW.is_valid 101 = false) :=
  ⟨c9_is_valid_window.1 entryW 50,
    c9_is_valid_window.2.2 entryW 100 rfl (Or.inr ⟨0, rfl, by omega⟩)⟩

/-- C5 counterexample: with the ordered rule set whose single entry marks the
empty-string verdict name as "default" and an objection ratio matching no
condition, calculate_verdict returns "unknown", not the verdict marked
"default" (the source's `default_verdict or "unknown"` treats the empty
string as falsy), so the claim's "if no rule matches it returns the verdict
marked 'default'" fails on this rule set. -/
theorem c5_counterexample :
    calculate_verdict (1/2) [("", VerdictRule.default)] = "unknown"
    ∧ "unknown" ≠ "" := by
  exact ⟨rfl, by decide⟩

/-- C5 (amended): calculate_verdict returns the first verdict in configured
order whose operator/threshold test succeeds; if no condition matches it
returns the last verdict marked "default" — except that an empty-string
default verdict name yields "unknown" — and "unknown" when no default
exists; it is a total function (never throws). -/
theorem c5_first_match_then_default (r : ℚ) (rules : List (String × VerdictRule)) :
    (∀ (pre : List (String × VerdictRule)) (name op : String) (v : ℚ)
        (rest : List (String × VerdictRule)),
      rules = pre ++ (name, VerdictRule.cond op v) :: rest →
      (∀ p ∈ pre, condMatchesB r p = false) →
      ruleTest op r v = true →
      calculate_verdict r rules = name)
    ∧ ((∀ p ∈ rules, condMatchesB r p = false) →
        calculate_verdict r rules = pyDefaultVerdict (lastDefaultName rules)) := by
  constructor
  · intro pre name op v rest hrules hpre hm
    rw [hrules]
    exact calcVerdictGo_first_match r name op v rest pre none hpre hm
  · intro h
    exact calcVerdictGo_no_match r rules none h

/-- C5 witness: on the default rule set with ratio 1/3, rule "supported"
(eq 0) fails, rule "suspicious" (lt 1/2) is the first match; and with ratio
3/4 no condition matches and the default "refuted" is returned. -/
theorem c5_first_match_then_default_witness :
    calculate_verdict (1/3) defaultVerdictRules = "suspicious"
    ∧ calculate_verdict (3/4) defaultVerdictRules = "refuted" :=
  ⟨(c5_first_match_then_default (1/3) defaultVerdictRules).1
      [("supported", VerdictRule.cond "eq" 0)] "suspicious" "lt" (1/2)
      [("refuted", VerdictRule.default)] rfl
      (by intro p hp; simp at hp; subst hp; simp [condMatchesB, ruleTest]; try norm_num)
      (by simp [ruleTest]; try norm_num),
    (c5_first_match_then_default (3/4) defaultVerdictRules).2
      (by
        intro p hp
        simp [defaultVerdictRules] at hp
        rcases hp with h | h | h <;> subst h <;>
          simp [condMatchesB, ruleTest] <;> norm_num)⟩

/-- An operator string outside the five recognised ones never matches. -/
lemma ruleTest_unknown_op (op : String)
    (h : op ∉ (["eq", "lt", "le", "gt", "ge"] : List String)) (r v : ℚ) :
    ruleTest op r v = false := by
  simp only [List.mem_cons, List.mem_singleton, not_or] at h
  obtain ⟨h1, h2, h3, h4, h5⟩ := h
  simp [ruleTest, h1, h2, h3, h4, h5]

/-- C8 counterexample: a Judge constructed with a verdict rule using the
unknown operator "between" is built without any failure — Judge.__init__
stores the rules unvalidated (its only raising code concerns the LLM model
configuration) — and at trial time calculate_verdict silently never matches
the rule, returning "unknown"; so "an unknown operator in a verdict rule
causes construction of the Court/Judge to fail" is false at this input. -/
theorem c8_counterexample :
    mkJudge (some [("custom", VerdictRule.cond "between" (1/2))])
        = JudgeCfg.mk [("custom", VerdictRule.cond "between" (1/2))]
    ∧ calculate_verdict (3/4) [("custom", VerdictRule.cond "between" (1/2))] = "unknown" := by
  constructor
  · rfl
  · simp [calculate_verdict, calcVerdictGo, ruleTest]

/-- C8 (amended): fewer juries than the quorum makes Court construction fail
with a ValueError, and a sufficient jury count constructs successfully; but
an unknown operator in a verdict rule is not rejected at construction — it
is silently skipped at trial time (its test never succeeds and
calculate_verdict behaves as if the rule were absent, without throwing). -/
theorem c8_construction_validation (numJuries quorum limit : Nat) :
    (numJuries < quorum →
        mkCourt numJuries quorum limit = Except.error
          ("Number of juries (" ++ toString numJuries ++
            ") must be >= quorum (" ++ toString quorum ++ ")"))
    ∧ (quorum ≤ numJuries → mkCourt numJuries quorum limit = Except.ok (quorum, limit))
    ∧ (∀ op : String, op ∉ (["eq", "lt", "le", "gt", "ge"] : List String) →
        ∀ r v : ℚ, ruleTest op r v = false)
    ∧ (∀ (op name : String) (r v : ℚ) (rest : List (String × VerdictRule)),
        op ∉ (["eq", "lt", "le", "gt", "ge"] : List String) →
        calculate_verdict r ((name, VerdictRule.cond op v) :: rest)
          = calculate_verdict r rest) := by
  refine ⟨?_, ?_, ?_, ?_⟩
  · intro h; simp [mkCourt, h]
  · intro h; simp [mkCourt, Nat.not_lt.mpr h]
  · exact fun op h r v => ruleTest_unknown_op op h r v
  · intro op name r v rest h
    simp [calculate_verdict, calcVerdictGo, ruleTest_unknown_op op h r v]

/-- C8 witness: 2 juries against quorum 3 fail construction, 3 suffice; the
unknown operator "between" never matches and the rule carrying it is
transparent to calculate_verdict. -/
theorem c8_construction_validation_witness :
    mkCourt 2 3 5 = Except.error
      ("Number of juries (" ++ toString 2 ++ ") must be >= quorum (" ++ toString 3 ++ ")")
    ∧ mkCourt 3 3 5 = Except.ok (3, 5)
    ∧ ruleTest "between" (1/3) (1/2) = false
    ∧ calculate_verdict (1/3)
        [("weird", VerdictRule.cond "between" (1/2)), ("fallback", VerdictRule.default)]
        = calculate_verdict (1/3) [("fallback", VerdictRule.default)] :=
  ⟨(c8_construction_validation 2 3 5).1 (by omega),
    (c8_construction_validation 3 3 5).2.1 (by omega),
    (c8_construction_validation 0 0 0).2.2.1 "between" (by decide) (1/3) (1/2),
    (c8_construction_validation 0 0 0).2.2.2 "between" "weird" (1/3) (1/2)
      [("fallback", VerdictRule.default)] (by decide)⟩

/-- Splitting a vote list by the abstain flag: the substantive part has
length n − k where k counts the abstains. -/
lemma length_filter_not_abstain (votes : List JuryVote) :
    (votes.filter (fun v => !(v.decision == Decision.abstain))).length
      = votes.length - (votes.filter (fun v => v.decision == Decision.abstain)).length := by
  induction votes with
  | nil => rfl
  | cons v t ih =>
    have hle := List.length_filter_le (fun v => v.decision == Decision.abstain) t
    cases h : (v.decision == Decision.abstain) <;>
      simp [List.filter_cons, h, ih] <;> omega

/-- C6: the Judge's objection_count counts exactly the suspicious_fact and
reasonable_doubt votes, and objection_ratio is that count over the length of
the vote list it was handed (0.0 on an empty list); the Court hands it the
delivered votes with abstains filtered out, so a batch of n delivered votes
with k abstains produces a ratio whose denominator is n − k, not n. -/
theorem c6_objection_statistics (judge : JudgeCfg) (llmR : Except String String) (claim : Claim) :
    (∀ votes : List JuryVote,
        (judgeVerdict judge llmR claim votes).objection_count
          = (votes.filter (fun v =>
              v.decision == Decision.suspicious_fact
                || v.decision == Decision.reasonable_doubt)).length
        ∧ (votes ≠ [] → (judgeVerdict judge llmR claim votes).objection_ratio
              = ((judgeVerdict judge llmR claim votes).objection_count : ℚ) / (votes.length : ℚ))
        ∧ (votes = [] → (judgeVerdict judge llmR claim votes).objection_ratio = 0))
    ∧ (∀ (env : TrialEnv) (c : Claim) (votes : List JuryVote),
        env.juryVoteOutcomes c = votes.map TaskOutcome.ok →
        substantive_votes env c = votes.filter (fun v => !(v.decision == Decision.abstain))
        ∧ (substantive_votes env c).length
            = votes.length - (votes.filter (fun v => v.decision == Decision.abstain)).length
        ∧ (substantive_votes env c ≠ [] →
            (judgeVerdict judge llmR c (substantive_votes env c)).objection_ratio
              = (objectionCount (substantive_votes env c) : ℚ)
                / ((votes.length
                    - (votes.filter (fun v => v.decision == Decision.abstain)).length : Nat) : ℚ))) := by
  have hcount : ∀ votes : List JuryVote,
      (judgeVerdict judge llmR claim votes).objection_count
        = (votes.filter (fun v =>
            v.decision == Decision.suspicious_fact
              || v.decision == Decision.reasonable_doubt)).length := by
    intro votes
    simp [judgeVerdict, objectionCount, JuryVote.is_objection]
  have hratio : ∀ (c2 : Claim) (votes : List JuryVote), votes ≠ [] →
      (judgeVerdict judge llmR c2 votes).objection_ratio
        = (objectionCount votes : ℚ) / (votes.length : ℚ) := by
    intro c2 votes hne
    have : votes.length ≠ 0 := by simpa using fun h => hne (List.length_eq_zero.mp h)
    simp [judgeVerdict, this]
  have hsubst : ∀ (env : TrialEnv) (c2 : Claim) (votes : List JuryVote),
      env.juryVoteOutcomes c2 = votes.map TaskOutcome.ok →
      substantive_votes env c2 = votes.filter (fun v => !(v.decision == Decision.abstain)) := by
    intro env c2 votes hjv
    have hcomp : (get_vote ∘ TaskOutcome.ok : JuryVote → Option JuryVote) = some := rfl
    simp [substantive_votes, hjv, List.map_map, List.filterMap_map, hcomp]
  refine ⟨fun votes => ⟨hcount votes, ?_, ?_⟩, fun env c2 votes hjv => ?_⟩
  · intro hne
    rw [hratio claim votes hne, hcount votes]
    simp [judgeVerdict, objectionCount, JuryVote.is_objection]
  · intro he; subst he; simp [judgeVerdict]
  · refine ⟨hsubst env c2 votes hjv, ?_, ?_⟩
    · rw [hsubst env c2 votes hjv]; exact length_filter_not_abstain votes
    · intro hne
      rw [hratio c2 (substantive_votes env c2) hne, hsubst env c2 votes hjv,
        length_filter_not_abstain votes]

/-- Concrete no-objection vote. -/
def voteNoObj : JuryVote :=
  { jury_name := "jury-1", claim_id := "cl-1", decision := Decision.no_objection,
    confidence := 1, reason := "looks right" }

/-- Concrete suspicious-fact vote. -/
def voteSusp : JuryVote :=
  { jury_name := "jury-2", claim_id := "cl-1", decision := Decision.suspicious_fact,
    confidence := 1, reason := "doubtful" }

/-- Concrete abstain vote. -/
def voteAbst : JuryVote :=
  { jury_name := "jury-3", claim_id := "cl-1", decision := Decision.abstain,
    confidence := 0, reason := "evaluation error" }

/-- Concrete claim used for the objection-statistics witness. -/
def claimW6 : Claim := { claim_id := "cl-1", text := "tea is a beverage" }

/-- Environment delivering three votes (one abstain) for every claim. -/
def envW6 : TrialEnv :=
  { juryVoteOutcomes := fun _ => [voteNoObj, voteSusp, voteAbst].map TaskOutcome.ok }

/-- C6 witness: with 3 delivered votes of which 1 abstains, the Court's
substantive filter keeps 2 votes and the Judge's ratio denominator is
3 − 1 = 2. -/
theorem c6_objection_statistics_witness :
    substantive_votes envW6 claimW6 = [voteNoObj, voteSusp]
    ∧ (substantive_votes envW6 claimW6).length
        = ([voteNoObj, voteSusp, voteAbst] : List JuryVote).length
          - (([voteNoObj, voteSusp, voteAbst] : List JuryVote).filter
              (fun v => v.decision == Decision.abstain)).length
    ∧ (judgeVerdict (mkJudge none) (Except.ok "") claimW6
          (substantive_votes envW6 claimW6)).objection_ratio
        = (objectionCount (substantive_votes envW6 claimW6) : ℚ)
          / ((([voteNoObj, voteSusp, voteAbst] : List JuryVote).length
              - (([voteNoObj, voteSusp, voteAbst] : List JuryVote).filter
                  (fun v => v.decision == Decision.abstain)).length : Nat) : ℚ) := by
  have h := (c6_objection_statistics (mkJudge none) (Except.ok "") claimW6).2 envW6 claimW6
    [voteNoObj, voteSusp, voteAbst] rfl
  have hval : substantive_votes envW6 claimW6 = [voteNoObj, voteSusp] := by
    rw [h.1]; rfl
  exact ⟨hval, h.2.1, h.2.2 (by rw [hval]; simp)⟩

/-- C7: a claim text with a currently valid exact match in the precedent
store is classified by the Prosecutor as source = cache carrying the cached
verdict; and the Court turns any such cache claim into a ClaimResult with an
empty vote list, objection count 0, ratio 0.0 and the cached verdict,
identically for every possible jury and judge-LLM environment — no jury
evaluator is invoked. -/
theorem c7_cache_short_circuit (env : TrialEnv) (text : String) (entry : CourtCodeEntry)
    (hexact : env.searchExact text = Except.ok (some entry))
    (hvalid : entry.is_valid env.now = true) :
    classifyClaim env text = Except.ok
      { claim_id := env.claimIdOf text, text := text, source := ClaimSource.cache,
        cache_id := some entry.entry_id, cached_verdict := some entry.verdict }
    ∧ (∀ (c : Claim), c.source = ClaimSource.cache → c.cached_verdict = some entry.verdict →
        ∀ (jv : Claim → List (TaskOutcome JuryVote))
          (jl : Claim → List JuryVote → Except String String),
        processClaim { env with juryVoteOutcomes := jv, judgeLLMReasoning := jl } c
          = COutcome.result
            { claim := c, jury_votes := [], verdict := entry.verdict,
              judge_reasoning :=
                "This claim was previously decided. Using cached verdict from precedent "
                  ++ pyOptStr c.cache_id ++ ".",
              objection_count := 0, objection_ratio := 0 }) := by
  constructor
  · simp [classifyClaim, hexact, Except.bind, bind, hvalid]
  · intro c hsrc hcv jv jl
    simp [processClaim, hsrc, hcv, cachedClaimResult]

/-- Concrete precedent-store entry backing the cache-hit witness. -/
def entryW7 : CourtCodeEntry :=
  { entry_id := "prec-42", claim := "water is wet", verdict := "supported",
    reasoning := "settled long ago", case_id := "case-7",
    valid_from := none, valid_until := some 10 }

/-- Environment whose store exact-matches every text to entryW7 and whose
juries would all crash if they were consulted. -/
def envW7 : TrialEnv :=
  { searchExact := fun _ => Except.ok (some entryW7)
    juryVoteOutcomes := fun _ => [TaskOutcome.err "jury should never run"]
    now := 10 }

/-- Concrete cache-source claim matching entryW7. -/
def claimW7 : Claim :=
  { claim_id := "c", text := "water is wet", source := ClaimSource.cache,
    cache_id := some "prec-42", cached_verdict := some "supported" }

/-- C7 witness: the concrete cache hit classifies as a cache claim and
short-circuits to a zero-vote ClaimResult with the cached verdict
"supported", with the jury environment replaced by an arbitrary crashing
one. -/
theorem c7_cache_short_circuit_witness :
    classifyClaim envW7 "water is wet" = Except.ok
      { claim_id := envW7.claimIdOf "water is wet", text := "water is wet",
        source := ClaimSource.cache, cache_id := some "prec-42",
        cached_verdict := some "supported" }
    ∧ processClaim { envW7 with
          juryVoteOutcomes := (fun _ => [TaskOutcome.err "crash"]),
          judgeLLMReasoning := (fun _ _ => Except.error "crash") } claimW7
        = COutcome.result
          { claim := claimW7, jury_votes := [], verdict := "supported",
            judge_reasoning :=
              "This claim was previously decided. Using cached verdict from precedent "
                ++ pyOptStr claimW7.cache_id ++ ".",
            objection_count := 0, objection_ratio := 0 } := by
  have h := c7_cache_short_circuit envW7 "water is wet" entryW7 rfl rfl
  exact ⟨h.1, h.2 claimW7 rfl rfl
    (fun _ => [TaskOutcome.err "crash"]) (fun _ _ => Except.error "crash")⟩

/-- C3: when the substantive (delivered, non-abstain) votes collected for a
non-cache claim fall strictly below the quorum — the earlier claims of the
case having produced no quorum failure — the case report's status is
"mistrial" with an error message naming that claim, no ClaimResult is
produced for it (the report carries exactly the earlier claims' results),
and the claims after it are never evaluated: the report is the same
whatever follows the offending claim. -/
theorem c3_quorum_mistrial (env : TrialEnv) (case_text domain : String)
    (pre : List Claim) (c : Claim) (post : List Claim)
    (hpre : ∀ p ∈ pre, processClaim env p ≠ COutcome.quorumFail)
    (hsrc : c.source ≠ ClaimSource.cache)
    (hq : (substantive_votes env c).length < env.quorum) :
    (hearFromClaims env case_text domain (pre ++ c :: post)).status = "mistrial"
    ∧ (hearFromClaims env case_text domain (pre ++ c :: post)).error_message
        = some ("Failed to meet quorum for claim: " ++ c.text.take 50 ++ "...")
    ∧ (hearFromClaims env case_text domain (pre ++ c :: post)).claims = resultsOf env pre
    ∧ (∀ post2 : List Claim,
        hearFromClaims env case_text domain (pre ++ c :: post2)
          = hearFromClaims env case_text domain (pre ++ c :: post)) := by
  have hc : processClaim env c = COutcome.quorumFail :=
    (processClaim_quorumFail_iff env c hsrc).mpr hq
  have hloop : ∀ post3 : List Claim, hearLoop env (pre ++ c :: post3) {} =
      { results := resultsOf env pre
        mistrial := true
        partFail := anyRaised env pre
        errMsg := some (quorumErrorMessage c) } := by
    intro post3
    have := hearLoop_quorumFail env c post3 pre {} hpre hc
    simpa using this
  refine ⟨?_, ?_, ?_, ?_⟩
  · simp [hearFromClaims, hloop post]
  · simp [hearFromClaims, hloop post, quorumErrorMessage]
  · simp [hearFromClaims, hloop post]
  · intro post2; simp [hearFromClaims, hloop post, hloop post2]

/-- Concrete claim that two substantive votes cannot push past quorum 3. -/
def claimW3 : Claim := { claim_id := "cl-3", text := "the moon is made of cheese" }

/-- Environment with default quorum 3 in which every claim receives two
substantive votes and one abstention. -/
def envW3 : TrialEnv :=
  { juryVoteOutcomes := fun _ =>
      [TaskOutcome.ok voteNoObj, TaskOutcome.ok voteSusp, TaskOutcome.ok voteAbst] }

/-- C3 witness: quorum 3 with exactly 2 substantive votes (plus one abstain)
on the only claim yields a mistrial report with the quorum message, no
ClaimResult, and the same report whatever claims would have followed. -/
theorem c3_quorum_mistrial_witness :
    (hearFromClaims envW3 "case text" "general" [claimW3]).status = "mistrial"
    ∧ (hearFromClaims envW3 "case text" "general" [claimW3]).error_message
        = some ("Failed to meet quorum for claim: " ++ claimW3.text.take 50 ++ "...")
    ∧ (hearFromClaims envW3 "case text" "general" [claimW3]).claims = resultsOf envW3 []
    ∧ hearFromClaims envW3 "case text" "general" ([] ++ claimW3 :: [claimW3])
        = hearFromClaims envW3 "case text" "general" ([] ++ claimW3 :: []) := by
  have h := c3_quorum_mistrial envW3 "case text" "general" [] claimW3 []
    (by intro p hp; simp at hp) (by simp [claimW3]) (by decide)
  exact ⟨h.1, h.2.1, h.2.2.1, h.2.2.2 [claimW3]⟩

/-- C10: the report status is the deterministic function of the two failure
flags the source computes, with mistrial taking precedence: a quorum failure
anywhere (even after claims whose processing raised) makes the status
"mistrial" and the report still carries the ClaimResults accumulated before
the halt; with no quorum failure, the status is "partial" exactly when some
claim's processing raised, and "completed" otherwise. -/
theorem c10_status_flags (env : TrialEnv) (case_text domain : String) :
    (∀ (pre : List Claim) (c : Claim) (post : List Claim),
        (∀ p ∈ pre, processClaim env p ≠ COutcome.quorumFail) →
        processClaim env c = COutcome.quorumFail →
        (hearFromClaims env case_text domain (pre ++ c :: post)).status = "mistrial"
        ∧ (hearFromClaims env case_text domain (pre ++ c :: post)).claims
            = resultsOf env pre)
    ∧ (∀ claims : List Claim,
        (∀ p ∈ claims, processClaim env p ≠ COutcome.quorumFail) →
        anyRaised env claims = true →
        (hearFromClaims env case_text domain claims).status = "partial")
    ∧ (∀ claims : List Claim,
        (∀ p ∈ claims, processClaim env p ≠ COutcome.quorumFail) →
        anyRaised env claims = false →
        (hearFromClaims env case_text domain claims).status = "completed") := by
  refine ⟨?_, ?_, ?_⟩
  · intro pre c post hpre hc
    have := hearLoop_quorumFail env c post pre {} hpre hc
    constructor <;> simp [hearFromClaims, this]
  · intro claims hnq hr
    have := hearLoop_no_quorumFail env claims {} hnq
    simp [hearFromClaims, this, hr]
  · intro claims hnq hr
    have := hearLoop_no_quorumFail env claims {} hnq
    simp [hearFromClaims, this, hr]

/-- Cache claim whose missing cached verdict makes ClaimResult validation
raise inside the per-claim try block (caught, flagging partial_failure). -/
def claimRaisedW : Claim :=
  { claim_id := "cl-r", text := "cached claim with missing verdict",
    source := ClaimSource.cache, cache_id := some "prec-0", cached_verdict := none }

/-- Claim processed by juries; under envW10 it receives no votes at all, so
quorum 3 fails. -/
def claimQuorumW : Claim := { claim_id := "cl-q", text := "novel claim nobody votes on" }

/-- Environment whose juries never deliver any vote. -/
def envW10 : TrialEnv := { juryVoteOutcomes := fun _ => [] }

/-- C10 witness: a claim whose processing raises followed by a quorum-failing
claim gives status "mistrial" (precedence over partial) with the pre-halt
results; the raising claim alone gives "partial"; no claims gives
"completed". -/
theorem c10_status_flags_witness :
    (hearFromClaims envW10 "t" "general" ([claimRaisedW] ++ claimQuorumW :: [])).status = "mistrial"
    ∧ (hearFromClaims envW10 "t" "general" ([claimRaisedW] ++ claimQuorumW :: [])).claims
        = resultsOf envW10 [claimRaisedW]
    ∧ (hearFromClaims envW10 "t" "general" [claimRaisedW]).status = "partial"
    ∧ (hearFromClaims envW10 "t" "general" []).status = "completed" := by
  have hraised : processClaim envW10 claimRaisedW = COutcome.raised := by
    simp [processClaim, claimRaisedW]
  have hqf : processClaim envW10 claimQuorumW = COutcome.quorumFail := by
    apply (processClaim_quorumFail_iff envW10 claimQuorumW (by simp [claimQuorumW])).mpr
    simp [substantive_votes, envW10]
  have h := c10_status_flags envW10 "t" "general"
  refine ⟨(h.1 [claimRaisedW] claimQuorumW [] ?_ hqf).1,
    (h.1 [claimRaisedW] claimQuorumW [] ?_ hqf).2,
    h.2.1 [claimRaisedW] ?_ ?_, h.2.2 [] ?_ ?_⟩
  · intro p hp; simp at hp; subst hp; simp [hraised]
  · intro p hp; simp at hp; subst hp; simp [hraised]
  · intro p hp; simp at hp; subst hp; simp [hraised]
  · simp [anyRaised, hraised]
  · intro p hp; simp at hp
  · simp [anyRaised]

/-- The similar-precedent branch succeeds whenever search_similar does. -/
lemma classifySimilar_ok (env : TrialEnv) (t : String)
    (hsim : ∃ ps, env.searchSimilar t = Except.ok ps) :
    ∃ c, classifySimilar env t = Except.ok c := by
  obtain ⟨ps, hp⟩ := hsim
  by_cases hv : (ps.filter (fun p => p.is_valid env.now)).isEmpty
  · exact ⟨Claim.mk (env.claimIdOf t) t ClaimSource.new none none [],
      by simp [classifySimilar, hp, Except.bind, bind, hv]⟩
  · exact ⟨Claim.mk (env.claimIdOf t) t ClaimSource.precedent none none
        (ps.filter (fun p => p.is_valid env.now)),
      by simp [classifySimilar, hp, Except.bind, bind, hv]⟩

/-- mapM over Except succeeds when every element map succeeds. -/
lemma mapM_classify_ok (env : TrialEnv)
    (h : ∀ t, ∃ c, classifyClaim env t = Except.ok c) :
    ∀ l : List String, ∃ cs, l.mapM (classifyClaim env) = Except.ok cs := by
  intro l
  induction l with
  | nil => exact ⟨[], rfl⟩
  | cons t rest ih =>
    obtain ⟨c, hc⟩ := h t
    obtain ⟨cs, hcs⟩ := ih
    exact ⟨c :: cs, by rw [List.mapM_cons, hc, hcs]; rfl⟩

/-- Environment whose precedent store raises on every exact-match lookup. -/
def envC1 : TrialEnv :=
  { searchExact := fun _ => Except.error "court_code lookup failed" }

/-- C1 counterexample: with a precedent store whose exact-match lookup raises,
Court.hear propagates the exception to its caller instead of returning a
CaseReport — prosecutor.process is called before and outside hear's
per-claim try block, and Prosecutor.process does not guard its store
lookups. -/
theorem c1_counterexample :
    hear envC1 "Water boils at 100C at sea level" "general"
      = Except.error "court_code lookup failed" := by
  rfl

/-- C1 (amended): Court.hear returns a CaseReport for every case text and
domain whenever the precedent-store lookups inside Prosecutor.process
succeed — failures of claim splitting (caught inside the Prosecutor), of
jury votes, of judge reasoning, and quorum failures are all absorbed — but
an exception raised by the precedent lookup (search_exact/search_similar)
propagates out of hear. -/
theorem c1_hear_returns_report (env : TrialEnv) (case_text domain : String)
    (hex : ∀ t, ∃ r, env.searchExact t = Except.ok r)
    (hsim : ∀ t, ∃ ps, env.searchSimilar t = Except.ok ps) :
    ∃ report, hear env case_text domain = Except.ok report := by
  have hclassify : ∀ t, ∃ c, classifyClaim env t = Except.ok c := by
    intro t
    obtain ⟨r, hr⟩ := hex t
    cases r with
    | none =>
      obtain ⟨c, hc⟩ := classifySimilar_ok env t (hsim t)
      exact ⟨c, by simp [classifyClaim, hr, Except.bind, bind, hc]⟩
    | some entry =>
      cases hv : entry.is_valid env.now with
      | true =>
        exact ⟨Claim.mk (env.claimIdOf t) t ClaimSource.cache (some entry.entry_id)
            (some entry.verdict) [],
          by simp [classifyClaim, hr, Except.bind, bind, hv]⟩
      | false =>
        obtain ⟨c, hc⟩ := classifySimilar_ok env t (hsim t)
        exact ⟨c, by simp [classifyClaim, hr, Except.bind, bind, hv, hc]⟩
  obtain ⟨cs, hcs⟩ := mapM_classify_ok env hclassify
    (if env.auto_claim_splitting then split_into_claims env case_text else [case_text])
  have hp2 : prosecutorProcess env case_text = Except.ok cs := hcs
  exact ⟨hearFromClaims env case_text domain cs, by simp [hear, hp2, Except.map]⟩

/-- Environment with a healthy store but a raising claim-splitting LLM and
juries that all crash. -/
def envC1W : TrialEnv :=
  { auto_claim_splitting := true
    splitResponse := SplitResponse.raised "split LLM unreachable"
    juryVoteOutcomes := fun _ =>
      [TaskOutcome.err "jury 1 crashed", TaskOutcome.err "jury 2 crashed",
        TaskOutcome.err "jury 3 crashed"] }

/-- C1 witness: with working store lookups, hear returns a report even though
claim splitting raised and every jury crashed. -/
theorem c1_hear_returns_report_witness :
    (hear envC1W "Mars has two moons" "general").isOk = true := by
  obtain ⟨report, hr⟩ := c1_hear_returns_report envC1W "Mars has two moons" "general"
    (fun t => ⟨none, rfl⟩) (fun t => ⟨[], rfl⟩)
  rw [hr]; rfl

/-- C2 counterexample: the Bounded Concurrency Runner itself does not convert
a failing task into a None result — asyncio.gather propagates the
exception — so for this 3-task batch with limit 2 the result is the error,
not a length-3 list with None in the middle. -/
theorem c2_counterexample :
    run_with_concurrency_limit
        [TaskOutcome.ok (1 : Nat), TaskOutcome.err "jury crashed", TaskOutcome.ok 2] 2
      = Except.error "jury crashed" := rfl

/-- C2 (amended): failure isolation is performed by the Court's get_vote
wrapper, not by run_with_concurrency_limit: each jury task is wrapped so it
never raises, and then the runner returns a list of length N in input order
with None exactly at the wrapped tasks that failed. -/
theorem c2_runner_with_wrapped_tasks (outcomes : List (TaskOutcome JuryVote)) (limit : Nat) :
    run_with_concurrency_limit (outcomes.map (fun o => TaskOutcome.ok (get_vote o))) limit
        = Except.ok (outcomes.map get_vote)
    ∧ (outcomes.map get_vote).length = outcomes.length
    ∧ (∀ (i : Nat) (h : i < outcomes.length) (msg : String),
        outcomes.get ⟨i, h⟩ = TaskOutcome.err msg →
        (outcomes.map get_vote).get ⟨i, by simpa using h⟩ = none) := by
  refine ⟨run_concurrency_map_ok get_vote outcomes limit, by simp, ?_⟩
  intro i h msg he
  rw [List.get_eq_getElem] at he
  simp [List.get_map, he, get_vote]

/-- Two wrapped jury tasks: one delivered vote, one crash. -/
def outcomesW2 : List (TaskOutcome JuryVote) :=
  [TaskOutcome.ok voteNoObj, TaskOutcome.err "jury crashed mid-vote"]

/-- C2 witness: the wrapped 2-task batch returns both positions, with None
exactly at the crashed task's position. -/
theorem c2_runner_with_wrapped_tasks_witness :
    run_with_concurrency_limit (outcomesW2.map (fun o => TaskOutcome.ok (get_vote o))) 1
        = Except.ok (outcomesW2.map get_vote)
    ∧ (outcomesW2.map get_vote).get ⟨1, by simp [outcomesW2]⟩ = none := by
  have h := c2_runner_with_wrapped_tasks outcomesW2 1
  exact ⟨h.1, h.2.2 1 (by simp [outcomesW2]) "jury crashed mid-vote" rfl⟩

/-- Concrete claim evaluated by the jury model. -/
def claimW4 : Claim := { claim_id := "cl-4", text := "bananas are berries" }

/-- C4 counterexample: when generate_json succeeds but the parsed JSON object
contains none of the expected keys — malformed structured output under the
spec's Reasoner contract — _vote_simple does not abstain: dict.get defaults
produce decision "reasonable_doubt" with confidence 0.5. -/
theorem c4_counterexample :
    vote_simple "jury-a" none (LLMJsonResult.dict {}) claimW4
      = { jury_name := "jury-a", claim_id := "cl-4",
          decision := Decision.reasonable_doubt, confidence := 1/2,
          reason := "No reason provided", reference_summary := none, search_cycles := 1 }
    ∧ Decision.reasonable_doubt ≠ Decision.abstain := by
  constructor
  · simp [vote_simple, parseVoteResponse, simpleEvidenceText, claimW4]
    norm_num
  · decide

/-- C4 (amended): whenever the Reasoner call raises (transport error,
unparseable output, timeout) the jury's vote — in both the simple and the
STEEL mode — is a single JuryVote with decision abstain, confidence 0.0 and
a reason describing the failure; and only a response that parsed to a JSON
object can ever yield a non-abstain vote. However, a successfully parsed
object missing the expected keys is not treated as a failure: dict.get
defaults then yield decision "reasonable_doubt" with confidence 0.5. -/
theorem c4_reasoner_failure_abstains (name : String)
    (retrieval : Option (TaskOutcome (List String))) (claim : Claim) (msg : String) :
    vote_simple name retrieval (LLMJsonResult.failure msg) claim
        = abstainVote name claim.claim_id ("Error during evaluation: " ++ msg) 1
    ∧ (vote_simple name retrieval (LLMJsonResult.failure msg) claim).decision = Decision.abstain
    ∧ (vote_simple name retrieval (LLMJsonResult.failure msg) claim).confidence = 0
    ∧ (∀ (retrieve : Nat → String → TaskOutcome (List String))
        (sufficiency : Nat → SuffResponse) (maxCycles : Nat),
        vote_with_steel name retrieve sufficiency (LLMJsonResult.failure msg) maxCycles claim
          = abstainVote name claim.claim_id ("Error during STEEL evaluation: " ++ msg)
              (steelGo retrieve sufficiency maxCycles
                { evidence := [], cycles := 0, query := claim.text }).cycles)
    ∧ (∀ llm : LLMJsonResult,
        (parseVoteResponse llm name claim.claim_id none 1
            "Error during evaluation: ").decision ≠ Decision.abstain →
        ∃ fields, llm = LLMJsonResult.dict fields) := by
  refine ⟨rfl, rfl, rfl, fun retrieve sufficiency maxCycles => rfl, ?_⟩
  intro llm h
  cases llm with
  | failure m => exact absurd rfl h
  | nonDict => exact absurd rfl h
  | dict fields => exact ⟨fields, rfl⟩

/-- C4 witness: a concrete transport failure yields the abstain vote with
confidence 0 and a reason carrying the failure text, in both modes. -/
theorem c4_reasoner_failure_abstains_witness :
    vote_simple "jury-b" none (LLMJsonResult.failure "connection timeout") claimW4
        = abstainVote "jury-b" claimW4.claim_id
            ("Error during evaluation: " ++ "connection timeout") 1
    ∧ (vote_simple "jury-b" none (LLMJsonResult.failure "connection timeout") claimW4).confidence = 0
    ∧ vote_with_steel "jury-b" (fun _ _ => TaskOutcome.err "no source")
          (fun _ => SuffResponse.otherR) (LLMJsonResult.failure "connection timeout") 3 claimW4
        = abstainVote "jury-b" claimW4.claim_id
            ("Error during STEEL evaluation: " ++ "connection timeout")
            (steelGo (fun _ _ => TaskOutcome.err "no source")
              (fun _ => SuffResponse.otherR) 3
              { evidence := [], cycles := 0, query := claimW4.text }).cycles := by
  have h := c4_reasoner_failure_abstains "jury-b" none claimW4 "connection timeout"
  exact ⟨h.1, h.2.2.1,
    h.2.2.2.1 (fun _ _ => TaskOutcome.err "no source") (fun _ => SuffResponse.otherR) 3⟩

end Lemmas

end ModelCourt
